import Mathlib

/-!
Verification of the client-side realtime streaming session controller of the
Kratos_Agentic frontend, shallowly embedded in Lean 4.

The embedding covers:
* the data model of `frontend/src/types` (`Message`, `CouncilUpdate`,
  `StreamingChunk`);
* the `VoiceChat` component's chunk dispatcher `handleStreamingChunk`,
  message appender `addMessage`, and recording-stop handler
  `handleRecordingStop`;
* the `WebSocketManager` of `frontend/src/services/websocket.ts`
  (`connect`, `disconnect`, the `onclose` handler, `attemptReconnect`);
* the `TextInput` component's `handleSend` and the `AudioRecorder`
  button guard.

React `useState` setters are modelled as updates to an explicit record of
the component's state; the chunk handler becomes a transition function on
that record, reading the current state.  Side effects (audio playback,
console logging, WebSocket sends, timer scheduling) are returned as
explicit effect lists.
-/

namespace Kratos

/-- `CouncilMember.status` field of `frontend/src/types`. -/
inductive MemberStatus where
  | thinking
  | complete
  | error
deriving Repr, DecidableEq

/-- `CouncilUpdate.stage` field of `frontend/src/types`. -/
inductive Stage where
  | opinions
  | review
  | synthesis
deriving Repr, DecidableEq

/-- `CouncilMember` of `frontend/src/types`: `{id, opinion, score, status}`. -/
structure CouncilMember where
  id : Int
  opinion : String
  score : Int
  status : MemberStatus
deriving Repr, DecidableEq

/-- `CouncilUpdate` of `frontend/src/types`:
`{stage, members, dissent?}`. -/
structure CouncilUpdate where
  stage : Stage
  members : List CouncilMember
  dissent : Option Bool
deriving Repr, DecidableEq

/-- `Message.role` of `frontend/src/types`. -/
inductive Role where
  | user
  | assistant
deriving Repr, DecidableEq

/-- `Message` of `frontend/src/types`.  `Date.now()` and `new Date()` are
modelled by a `Nat` clock value; `metadata` carries only the `council`
entry, the one field the dispatcher writes. -/
structure Message where
  id : String
  role : Role
  content : String
  timestamp : Nat
  metadata : Option CouncilUpdate
deriving Repr, DecidableEq

/-- An `ArrayBuffer` audio payload, as an opaque byte list. -/
abbrev AudioBuffer := List Nat

/-- `StreamingChunk` of `frontend/src/types`: the tagged union
`{type: text|audio|council_update|error|done, content}`, with the payload
typed per variant exactly as the `VoiceChat` handler casts it. -/
inductive StreamingChunk where
  | text (content : String)
  | audio (content : AudioBuffer)
  | council_update (content : CouncilUpdate)
  | error (content : String)
  | done
deriving Repr, DecidableEq

/-- The `useState` hooks of the `VoiceChat` component, as one record. -/
structure VoiceChatState where
  messages : List Message
  isRecording : Bool
  isProcessing : Bool
  currentResponse : String
  councilUpdate : Option CouncilUpdate
  isConnected : Bool
  /-- the wall clock (`Date.now()`), read when a message is built -/
  now : Nat
deriving Repr, DecidableEq

/-- The initial state of a freshly mounted `VoiceChat` component. -/
def initState : VoiceChatState :=
  { messages := []
    isRecording := false
    isProcessing := false
    currentResponse := ""
    councilUpdate := none
    isConnected := false
    now := 0 }

/-- Side effects the chunk dispatcher and the recording handler perform. -/
inductive Effect where
  /-- `audioService.playAudio(chunk.content)` -/
  | playAudio (data : AudioBuffer)
  /-- `console.error('Streaming error:', chunk.content)` -/
  | logStreamingError (msg : String)
  /-- `console.error('Failed to parse WebSocket message:', ...)` -/
  | logParseError (raw : String)
  /-- `console.error('Failed to process recording:', error)` -/
  | logRecordingError (msg : String)
  /-- `wsManager.send({request_type, content, metadata: {}})` -/
  | wsSend (request_type : String) (content : String)
deriving Repr, DecidableEq

/-- `addMessage(role, content)` of `VoiceChat`: builds a `Message` whose id
and timestamp come from the clock and whose metadata is the current council
snapshot when one is present, and appends it to the message list. -/
def addMessage (s : VoiceChatState) (role : Role) (content : String) :
    VoiceChatState :=
  let message : Message :=
    { id := toString s.now
      role := role
      content := content
      timestamp := s.now
      metadata := s.councilUpdate }
  { s with messages := s.messages ++ [message] }

/-- `handleStreamingChunk(chunk)` of `VoiceChat`: the `switch` on
`chunk.type`.  Returns the updated component state and the side effects
performed.  In the `done` branch the JavaScript truthiness test
`if (currentResponse)` is the emptiness test on the accumulator string. -/
def handleStreamingChunk (s : VoiceChatState) (chunk : StreamingChunk) :
    VoiceChatState × List Effect :=
  match chunk with
  | .text c => ({ s with currentResponse := s.currentResponse ++ c }, [])
  | .audio d => (s, [.playAudio d])
  | .council_update u => ({ s with councilUpdate := some u }, [])
  | .done =>
      let s1 :=
        if s.currentResponse ≠ "" then
          { addMessage s .assistant s.currentResponse with currentResponse := "" }
        else s
      ({ s1 with councilUpdate := none, isProcessing := false }, [])
  | .error msg => ({ s with isProcessing := false }, [.logStreamingError msg])

/-- Folds `handleStreamingChunk` over a chunk sequence in arrival order,
collecting the effects. -/
def handleChunks (s : VoiceChatState) : List StreamingChunk →
    VoiceChatState × List Effect
  | [] => (s, [])
  | c :: cs =>
      let (s1, eff1) := handleStreamingChunk s c
      let (s2, eff2) := handleChunks s1 cs
      (s2, eff1 ++ eff2)

/-- An inbound WebSocket frame as the `onmessage` handler sees it: either
`JSON.parse(event.data)` succeeds and yields a `StreamingChunk`, or it
throws and the raw text is all that remains. -/
inductive Frame where
  | wellFormed (chunk : StreamingChunk)
  | malformed (raw : String)
deriving Repr, DecidableEq

/-- The `onmessage` handler installed by `WebSocketManager.connect` for the
`VoiceChat` component: parse the frame and dispatch the chunk; a parse
failure is caught and logged.  The third component records whether the
handler closed the connection — no branch of the source does, so it is
`false` in both. -/
def onMessageFrame (s : VoiceChatState) (f : Frame) :
    VoiceChatState × List Effect × Bool :=
  match f with
  | .wellFormed chunk =>
      let (s1, eff) := handleStreamingChunk s chunk
      (s1, eff, false)
  | .malformed raw => (s, [.logParseError raw], false)

/-- Folds `onMessageFrame` over a frame sequence in arrival order.  The
boolean is true when some frame's handling closed the connection. -/
def processFrames (s : VoiceChatState) : List Frame →
    VoiceChatState × List Effect × Bool
  | [] => (s, [], false)
  | f :: fs =>
      let (s1, eff1, closed1) := onMessageFrame s f
      let (s2, eff2, closed2) := processFrames s1 fs
      (s2, eff1 ++ eff2, closed1 || closed2)

/-!  `WebSocketManager` of `frontend/src/services/websocket.ts`. -/

/-- `maxReconnectAttempts` field initialiser of `WebSocketManager`. -/
def maxReconnectAttempts : Nat := 5

/-- `reconnectDelay` field initialiser of `WebSocketManager` (milliseconds). -/
def reconnectDelay : Nat := 1000

/-- What one call to `attemptReconnect` does, as a function of the current
`reconnectAttempts` counter: either the budget is exhausted and the error
callback fires, or the counter is incremented and a retry is scheduled. -/
inductive ReconnectAction where
  /-- `onError(new Error('Max reconnection attempts reached'))` and return -/
  | reportMaxReached
  /-- `setTimeout(connect, delay)` with the given delay in milliseconds -/
  | scheduleRetry (delay : Nat)
deriving Repr, DecidableEq

/-- `attemptReconnect` of `WebSocketManager`: checks the budget, then
increments `reconnectAttempts` and computes
`delay = reconnectDelay * Math.pow(2, reconnectAttempts - 1)`.
Returns the action taken and the new counter value. -/
def attemptReconnect (attempts : Nat) : ReconnectAction × Nat :=
  if attempts ≥ maxReconnectAttempts then
    (.reportMaxReached, attempts)
  else
    let a := attempts + 1
    (.scheduleRetry (reconnectDelay * 2 ^ (a - 1)), a)

/-- The delays scheduled during one failure episode that starts with the
counter at `attempts` and in which every retry's connection fails again:
each failed retry fires `onclose`, which calls `attemptReconnect` on the
incremented counter, until the budget check stops the loop. -/
def episodeDelays (attempts : Nat) : List Nat :=
  if attempts ≥ maxReconnectAttempts then []
  else (reconnectDelay * 2 ^ attempts) :: episodeDelays (attempts + 1)
termination_by maxReconnectAttempts - attempts
decreasing_by omega

/-- Observable state of a `WebSocketManager` together with the browser
event queue and timer queue it interacts with.  `ws` is the manager's
channel reference (a channel id); `liveChannels` lists every channel that
has been opened and not closed; `pendingCloseEvents` holds channels whose
`close` event has been triggered but whose `onclose` handler has not yet
run; `pendingTimers` holds the delays of scheduled reconnect timers;
`errorReports` collects error-callback messages. -/
structure MgrState where
  ws : Option Nat
  reconnectAttempts : Nat
  liveChannels : List Nat
  pendingCloseEvents : List Nat
  pendingTimers : List Nat
  errorReports : List String
  nextId : Nat
deriving Repr, DecidableEq

/-- `connect` of `WebSocketManager`, at the step where it executes
`this.ws = new WebSocket(this.url)`: unconditionally creates a fresh
channel and overwrites the stored reference.  No guard inspects the
previous `this.ws`, and the previous channel is not closed. -/
def connectStep (s : MgrState) : MgrState :=
  { s with
    ws := some s.nextId
    liveChannels := s.liveChannels ++ [s.nextId]
    nextId := s.nextId + 1 }

/-- `disconnect` of `WebSocketManager`: if a channel reference is held,
call `close()` on it (which triggers its `close` event) and null the
reference.  The method touches neither `reconnectAttempts` nor any timer,
and sets no manual-close flag — the class has no such field. -/
def disconnect (s : MgrState) : MgrState :=
  match s.ws with
  | some ch =>
      { s with
        ws := none
        liveChannels := s.liveChannels.filter (· ≠ ch)
        pendingCloseEvents := s.pendingCloseEvents ++ [ch] }
  | none => s

/-- The `onclose` handler installed by `connect`: runs when a pending
`close` event is delivered; it nulls `this.ws` and unconditionally calls
`this.attemptReconnect(onMessage, onError)` — it does not distinguish a
deliberate close from an unexpected one. -/
def fireOnClose (s : MgrState) : MgrState :=
  match s.pendingCloseEvents with
  | [] => s
  | _ :: rest =>
      let s1 := { s with pendingCloseEvents := rest, ws := none }
      match attemptReconnect s1.reconnectAttempts with
      | (.reportMaxReached, a) =>
          { s1 with
            reconnectAttempts := a
            errorReports := s1.errorReports ++ ["Max reconnection attempts reached"] }
      | (.scheduleRetry delay, a) =>
          { s1 with
            reconnectAttempts := a
            pendingTimers := s1.pendingTimers ++ [delay] }

/-!  `TextInput` component (`frontend/src/components/TextInput.tsx`) and the
`AudioRecorder` button (`frontend/src/components/AudioRecorder.tsx`). -/

/-- The `useState` hooks of the `TextInput` component. -/
structure TextInputState where
  messages : List Message
  input : String
  isProcessing : Bool
  now : Nat
deriving Repr, DecidableEq

/-- Result of one `handleSend` call: the component state afterwards, the
requests sent over the channel, and whether the call raised a `BusyError`.
The source handler contains no `throw` at all — its guard is a plain early
`return` — so the last component is `false` on every path. -/
structure SendResult where
  state : TextInputState
  sent : List Effect
  busyErrorRaised : Bool
deriving Repr, DecidableEq

/-- `handleSend` of `TextInput`: returns early when the trimmed input is
empty or the component is busy; otherwise appends the user message, clears
the input, sets the processing flag, and sends
`{request_type: 'text', content: input, metadata: {}}`. -/
def handleSend (s : TextInputState) : SendResult :=
  if s.input.trim = "" ∨ s.isProcessing then
    { state := s, sent := [], busyErrorRaised := false }
  else
    let userMessage : Message :=
      { id := toString s.now
        role := .user
        content := s.input
        timestamp := s.now
        metadata := none }
    { state :=
        { s with
          messages := s.messages ++ [userMessage]
          input := ""
          isProcessing := true }
      sent := [.wsSend "text" s.input]
      busyErrorRaised := false }

/-- What a click on the `AudioRecorder` button does. -/
inductive RecorderAction where
  /-- the button is `disabled={isProcessing}`: the click does nothing -/
  | none
  /-- `onStart` (`handleRecordingStart`) -/
  | start
  /-- `onStop` (`handleRecordingStop`) -/
  | stop
deriving Repr, DecidableEq

/-- The `AudioRecorder` button of `AudioRecorder.tsx`:
`disabled={isProcessing}` and `onClick={isRecording ? onStop : onStart}`. -/
def recorderClick (isRecording isProcessing : Bool) : RecorderAction :=
  if isProcessing then .none
  else if isRecording then .stop else .start

/-- `handleRecordingStop` of `VoiceChat`.  The outcomes of the awaited
calls `audioService.stopRecording()` and `apiClient.transcribeAudio(...)`
are passed in as `Except` values, and `connected` tells whether
`wsManager.send` would succeed (it throws when the socket is not open).
Any thrown error lands in the `catch` block, which logs and clears the
processing flag. -/
def handleRecordingStop (s : VoiceChatState) (connected : Bool)
    (stopResult : Except String AudioBuffer)
    (transcribeResult : Except String String) :
    VoiceChatState × List Effect :=
  match stopResult with
  | .error e => ({ s with isProcessing := false }, [.logRecordingError e])
  | .ok _blob =>
      let s1 := { s with isRecording := false, isProcessing := true }
      match transcribeResult with
      | .error e => ({ s1 with isProcessing := false }, [.logRecordingError e])
      | .ok text =>
          let s2 := addMessage s1 .user text
          if connected then
            (s2, [.wsSend "audio" text])
          else
            ({ s2 with isProcessing := false },
              [.logRecordingError "WebSocket is not connected"])

/-!  Helper lemmas. -/

/-- `String.join` unfolds on a cons cell. -/
theorem string_join_cons (c : String) (cs : List String) :
    String.join (c :: cs) = c ++ String.join cs := by
  apply String.ext
  simp [String.join_eq, String.data_append]

/-- `handleChunks` splits over list append: the second half runs from the
state the first half reaches, and effects concatenate. -/
theorem handleChunks_append (s : VoiceChatState) (xs ys : List StreamingChunk) :
    handleChunks s (xs ++ ys) =
      ((handleChunks (handleChunks s xs).1 ys).1,
        (handleChunks s xs).2 ++ (handleChunks (handleChunks s xs).1 ys).2) := by
  induction xs generalizing s with
  | nil => simp [handleChunks]
  | cons c cs ih => simp [handleChunks, ih]

/-- A run of `text` chunks appends the join of their contents to the
accumulator, changes nothing else, and performs no effects. -/
theorem handleChunks_texts (s : VoiceChatState) (contents : List String) :
    handleChunks s (contents.map StreamingChunk.text) =
      ({ s with currentResponse := s.currentResponse ++ String.join contents }, []) := by
  induction contents generalizing s with
  | nil => simp [handleChunks, String.join]
  | cons c cs ih =>
      simp [handleChunks, handleStreamingChunk, ih, string_join_cons,
        String.append_assoc]

/-!  The claims. -/

/-- Claim C1 (amended): starting from an empty response accumulator, a
sequence of `text` chunks followed by `done` whose concatenated content is
nonempty appends exactly one assistant message whose content is that
concatenation (with the current council snapshot as metadata), clears the
accumulator and the council snapshot, and clears the processing
indicator.  (When the concatenation is empty no message is appended; see
the counterexample.) -/
theorem C1_text_stream_finalized (s : VoiceChatState) (contents : List String)
    (hacc : s.currentResponse = "")
    (hne : String.join contents ≠ "") :
    (handleChunks s (contents.map StreamingChunk.text ++ [StreamingChunk.done])).1 =
      { s with
        messages := s.messages ++
          [{ id := toString s.now
             role := .assistant
             content := String.join contents
             timestamp := s.now
             metadata := s.councilUpdate }]
        currentResponse := ""
        councilUpdate := none
        isProcessing := false } := by
  rw [handleChunks_append, handleChunks_texts, hacc]
  simp [handleChunks, handleStreamingChunk, addMessage, hne]

/-- Claim C1, counterexample to the claim as stated: a `text` chunk with
empty content followed by `done` finalizes no assistant message at all —
the message list stays empty — because the `done` branch guards the append
with the accumulator's truthiness. -/
theorem C1_counterexample :
    (handleChunks initState
      ([""].map StreamingChunk.text ++ [StreamingChunk.done])).1.messages = [] := rfl

/-- Claim C1, witness: the theorem applied to the scenario
`[text "Hi", text " there", done]` from the empty initial state. -/
theorem C1_witness :
    (handleChunks initState
      (["Hi", " there"].map StreamingChunk.text ++ [StreamingChunk.done])).1 =
      { initState with
        messages := initState.messages ++
          [{ id := toString initState.now
             role := .assistant
             content := String.join ["Hi", " there"]
             timestamp := initState.now
             metadata := initState.councilUpdate }]
        currentResponse := ""
        councilUpdate := none
        isProcessing := false } :=
  C1_text_stream_finalized initState ["Hi", " there"] rfl (by decide)

/-- A manager holding one open channel (id `0`), counter at zero, nothing
pending. -/
def openMgr : MgrState :=
  { ws := some 0
    reconnectAttempts := 0
    liveChannels := [0]
    pendingCloseEvents := []
    pendingTimers := []
    errorReports := []
    nextId := 1 }

/-- Claim C2, evaluated at the failing input: after a deliberate
`disconnect()` on a connected manager, delivering the socket's `close`
event makes the unconditional `onclose` handler call `attemptReconnect`,
which schedules a 1000 ms retry timer; and `disconnect()` on a manager
with a pending retry timer leaves that timer in place (nothing cancels
it).  The claim says no reconnection is ever scheduled after a manual
close and pending retries are cancelled; the code does the opposite. -/
theorem C2_manual_close_schedules_retry :
    (fireOnClose (disconnect openMgr)).pendingTimers = [1000] ∧
    (disconnect { openMgr with pendingTimers := [1000] }).pendingTimers = [1000] :=
  ⟨rfl, rfl⟩

/-- Claim C3: in a failure episode started with the counter at zero, at
most `maxReconnectAttempts = 5` retries are ever scheduled; the delay
before attempt `k` is `reconnectDelay * 2 ^ (k - 1)`; the counter never
exceeds the maximum; and once the budget is exhausted `attemptReconnect`
reports failure through the error callback instead of retrying. -/
theorem C3_reconnect_policy (k : Nat) (h1 : 1 ≤ k) (h5 : k ≤ maxReconnectAttempts) :
    (episodeDelays 0).length = maxReconnectAttempts ∧
    (episodeDelays 0).get? (k - 1) = some (reconnectDelay * 2 ^ (k - 1)) ∧
    (∀ a, a ≤ maxReconnectAttempts →
      (attemptReconnect a).2 ≤ maxReconnectAttempts) ∧
    (attemptReconnect maxReconnectAttempts).1 = ReconnectAction.reportMaxReached := by
  have hdelays : episodeDelays 0 = [1000, 2000, 4000, 8000, 16000] := by
    rw [episodeDelays]; norm_num [maxReconnectAttempts, reconnectDelay]
    rw [episodeDelays]; norm_num [maxReconnectAttempts, reconnectDelay]
    rw [episodeDelays]; norm_num [maxReconnectAttempts, reconnectDelay]
    rw [episodeDelays]; norm_num [maxReconnectAttempts, reconnectDelay]
    rw [episodeDelays]; norm_num [maxReconnectAttempts, reconnectDelay]
    rw [episodeDelays]; norm_num [maxReconnectAttempts, reconnectDelay]
  refine ⟨by rw [hdelays]; rfl, ?_, ?_, ?_⟩
  · rw [hdelays]
    simp only [maxReconnectAttempts] at h5
    interval_cases k <;> simp [reconnectDelay]
  · intro a ha
    simp only [attemptReconnect]
    split <;> simp only [maxReconnectAttempts] at * <;> omega
  · rfl

/-- Claim C3, witness: the theorem applied at attempt `k = 3`. -/
theorem C3_witness :
    (1 ≤ 3 ∧ 3 ≤ maxReconnectAttempts) ∧
    ((episodeDelays 0).length = maxReconnectAttempts ∧
      (episodeDelays 0).get? (3 - 1) = some (reconnectDelay * 2 ^ (3 - 1)) ∧
      (∀ a, a ≤ maxReconnectAttempts →
        (attemptReconnect a).2 ≤ maxReconnectAttempts) ∧
      (attemptReconnect maxReconnectAttempts).1 = ReconnectAction.reportMaxReached) :=
  ⟨⟨by decide, by decide⟩, C3_reconnect_policy 3 (by decide) (by decide)⟩

/-- Claim C4: a malformed inbound frame is logged and dropped — the
session state is untouched, the handler does not close the connection —
and every subsequent frame is processed exactly as if the malformed one
had never arrived (same final state, same close flag, same effects except
for the prepended parse-error log). -/
theorem C4_malformed_frame_dropped (s : VoiceChatState) (raw : String)
    (rest : List Frame) :
    onMessageFrame s (.malformed raw) = (s, [.logParseError raw], false) ∧
    (processFrames s (.malformed raw :: rest)).1 = (processFrames s rest).1 ∧
    (processFrames s (.malformed raw :: rest)).2.1 =
      Effect.logParseError raw :: (processFrames s rest).2.1 ∧
    (processFrames s (.malformed raw :: rest)).2.2 = (processFrames s rest).2.2 := by
  refine ⟨rfl, ?_, ?_, ?_⟩ <;> simp [processFrames, onMessageFrame]

/-- A dispatcher state mid-exchange: accumulator holds `"Hi"`, processing
indicator set. -/
def midExchange : VoiceChatState :=
  { initState with currentResponse := "Hi", isProcessing := true }

/-- Claim C5, counterexample to the claim as stated: an `error` chunk
arriving while the accumulator holds `"Hi"` leaves the accumulator equal
to `"Hi"` — the `error` branch never clears it, contradicting "the
transient accumulator state is cleared". -/
theorem C5_counterexample :
    (handleStreamingChunk midExchange (StreamingChunk.error "boom")).1.currentResponse
      = "Hi" ∧ ("Hi" : String) ≠ "" :=
  ⟨rfl, by decide⟩

/-- Claim C5 (amended): an `error` chunk aborts the exchange — the error
is logged, no assistant message is appended, and the processing indicator
is cleared (session returns to idle) — but the accumulator and the council
snapshot are left unchanged, not cleared. -/
theorem C5_error_aborts (s : VoiceChatState) (msg : String) :
    handleStreamingChunk s (.error msg) =
      ({ s with isProcessing := false }, [.logStreamingError msg]) := rfl

/-- Claim C6: a `council_update` chunk makes the council snapshot equal
exactly the chunk's payload, whatever the prior snapshot was (including
none), and changes nothing else — wholesale replacement, no field-level
merge. -/
theorem C6_council_update_replaces (s : VoiceChatState) (u : CouncilUpdate) :
    (handleStreamingChunk s (.council_update u)).1.councilUpdate = some u ∧
    handleStreamingChunk s (.council_update u) =
      ({ s with councilUpdate := some u }, []) :=
  ⟨rfl, rfl⟩

/-- Claim C7: when recording stops successfully but the transcription call
fails, the exchange aborts back to idle: the failure is logged, nothing is
sent over the channel, no message is appended (in particular no
empty-content message), and the processing indicator ends cleared. -/
theorem C7_transcription_failure_aborts (s : VoiceChatState) (connected : Bool)
    (blob : AudioBuffer) (e : String) :
    handleRecordingStop s connected (.ok blob) (.error e) =
      ({ s with isRecording := false, isProcessing := false },
        [.logRecordingError e]) := rfl

/-- A busy `TextInput` component: processing flag set, nonempty draft. -/
def busyTextInput : TextInputState :=
  { messages := [], input := "hi", isProcessing := true, now := 0 }

/-- Claim C8, counterexample to the claim as stated: sending while busy
raises no `BusyError` — `handleSend` has no throw path at all; it returns
silently (state unchanged, nothing sent, no error raised). -/
theorem C8_counterexample :
    (handleSend busyTextInput).busyErrorRaised = false ∧
    (handleSend busyTextInput).state = busyTextInput ∧
    (handleSend busyTextInput).sent = [] := by
  refine ⟨?_, ?_, ?_⟩ <;> simp [handleSend, busyTextInput]

/-- Claim C8 (amended): while the component is busy, starting a new
exchange is rejected without altering any state, but silently rather than
with a `BusyError`: `handleSend` returns early (no message appended, no
input cleared, nothing sent, no error raised) and the record button is
disabled so a click performs no action. -/
theorem C8_busy_silent_reject (s : TextInputState) (r : Bool)
    (h : s.isProcessing = true) :
    handleSend s = { state := s, sent := [], busyErrorRaised := false } ∧
    recorderClick r true = RecorderAction.none := by
  constructor
  · simp [handleSend, h]
  · rfl

/-- Claim C8, witness: the amended theorem applied to the busy component. -/
theorem C8_witness :
    busyTextInput.isProcessing = true ∧
    (handleSend busyTextInput =
        { state := busyTextInput, sent := [], busyErrorRaised := false } ∧
      recorderClick true true = RecorderAction.none) :=
  ⟨rfl, C8_busy_silent_reject busyTextInput true rfl⟩

/-- Claim C9, counterexample to the claim as stated: calling `connect` on
a manager whose channel (id `0`) is open is not a no-op — the stored
reference changes to a fresh channel, and afterwards two live channels
exist (`[0, 1]`), since the previous one is never closed. -/
theorem C9_counterexample :
    (connectStep openMgr).ws ≠ openMgr.ws ∧
    (connectStep openMgr).liveChannels = [0, 1] :=
  ⟨by decide, rfl⟩

/-- Claim C9 (amended): a second `connect` call while a channel is open is
not a no-op: it unconditionally creates a fresh channel and overwrites the
stored reference, leaving the prior channel open (leaked), so more than
one live channel can exist. -/
theorem C9_connect_replaces (s : MgrState) :
    (connectStep s).ws = some s.nextId ∧
    (connectStep s).liveChannels = s.liveChannels ++ [s.nextId] ∧
    (connectStep s).reconnectAttempts = s.reconnectAttempts :=
  ⟨rfl, rfl, rfl⟩

/-- Claim C10: a `done` chunk arriving while the accumulator is empty
appends no assistant message; the council snapshot is still cleared and
the processing indicator is still cleared (session returns to idle). -/
theorem C10_done_empty_accumulator (s : VoiceChatState)
    (h : s.currentResponse = "") :
    handleStreamingChunk s .done =
      ({ s with councilUpdate := none, isProcessing := false }, []) := by
  simp [handleStreamingChunk, h]

/-- Claim C10, witness: the theorem applied to the initial state. -/
theorem C10_witness :
    initState.currentResponse = "" ∧
    handleStreamingChunk initState .done =
      ({ initState with councilUpdate := none, isProcessing := false }, []) :=
  ⟨rfl, C10_done_empty_accumulator initState rfl⟩

end Kratos
